import Mathlib

/-!
Verification of the session lifecycle and concurrent I/O broker of the
OCaml Telegram bot (src/ocaml_bot.py), as a shallow embedding.

Texts (chat messages, interpreter input/output) are modelled as lists of
characters.  OS process handles are modelled as numbers handed out by a
counter; a write to a handle listed in `deadProcs` raises BrokenPipeError.
The observable effects of one step (process spawns, writes to interpreter
standard input, thread starts, outbound chat messages) are collected in an
action trace.  An uncaught exception is recorded in the `raised` flag of a
step's output.
-/

namespace OcamlBot

/-- Message and stream text, as a list of characters. -/
abbrev Str := List Char

/-- Size of the command history (src line 63). -/
def HISTORY_LEN : Nat := 20

/-- The per-chat status dictionary (src lines 135-144): the Popen handle
(_PIPE), the buffered shell output (_MSG), the exit condition for the chat
threads (_COND), the command history (_HIST) and the last-activity
timestamp (_LAST).  The chat id (_ID) is the key under which the chat is
stored, and the lock and thread objects have no observable state here. -/
structure Chat where
  pipe : Nat
  msgBuf : Str
  cond : Bool
  hist : List Str
  last : Nat
deriving DecidableEq

/-- Observable effects of one step of the program. -/
inductive Action where
  | spawnProc (pid : Nat)
  | writeStdin (pid : Nat) (data : Str)
  | startReader (cid : Nat)
  | startFlush (cid : Nat)
  | send (cid : Nat) (msg : Str)
  | killProc (pid : Nat)
deriving DecidableEq

/-- Global interpreter state of the script: the `chats` dictionary keyed by
chat id, the module-level variable `p` (always the process spawned for the
most recently created chat, src line 470), a counter producing fresh
process handles, and the set of handles whose standard input raises
BrokenPipeError on write. -/
structure BotState where
  chats : List (Nat × Chat)
  globalP : Nat
  nextPid : Nat
  deadProcs : List Nat
deriving DecidableEq

/-- Result of one embedded step: the new state, the emitted actions, and
whether an uncaught exception propagated to the caller. -/
structure StepOut where
  st : BotState
  acts : List Action
  raised : Bool
deriving DecidableEq

/-- Dictionary lookup in the `chats` dict. -/
def findChat : List (Nat × Chat) → Nat → Option Chat
  | [], _ => none
  | (k, c) :: rest, cid => if k = cid then some c else findChat rest cid

/-- Replace the status dictionary of chat `cid`. -/
def setChat (st : BotState) (cid : Nat) (c : Chat) : BotState :=
  { st with chats := st.chats.map (fun p => if p.1 = cid then (cid, c) else p) }

/-- `chats[chatId][_LAST] = time.time()` (src line 502). -/
def setLast (st : BotState) (cid now : Nat) : BotState :=
  { st with
    chats := st.chats.map
      (fun p => if p.1 = cid then (cid, { p.2 with last := now }) else p) }

/-- The fresh chat dictionary entry built at src lines 480-487. -/
def freshChat (pid : Nat) : Chat :=
  { pipe := pid, msgBuf := [], cond := false, hist := [], last := 0 }

/-- Python's whitespace class \s: space, tab, newline, carriage return,
vertical tab, form feed. -/
def isSpaceCh (c : Char) : Bool :=
  c == ' ' || c == '\t' || c == '\n' || c == '\r' || c == '\x0b' || c == '\x0c'

/-- The literal alternatives of the hazard regex (src lines 119-121):
[Ss]ys, [Uu]nix, [Ss]tream, fork, exec, fprintf, input_file, output_file,
open_in, open_out, each expanded into its concrete spellings. -/
def denyLits : List Str :=
  [("Sys").toList, ("sys").toList, ("Unix").toList, ("unix").toList,
   ("Stream").toList, ("stream").toList, ("fork").toList, ("exec").toList,
   ("fprintf").toList, ("input_file").toList, ("output_file").toList,
   ("open_in").toList, ("open_out").toList]

/-- The keywords of the three hash-directive alternatives of the hazard
regex: #\s*cd, #\s*directory, #\s*install_printer. -/
def hashKws : List Str :=
  [("cd").toList, ("directory").toList, ("install_printer").toList]

/-- Does one of the literal alternatives match at the start of `s`? -/
def litAt (s : Str) : Option Str :=
  denyLits.find? (fun t => t.isPrefixOf s)

/-- Does one of the hash-directive alternatives #\s*kw match at the start
of `s`?  Returns the matched text (hash, whitespace run, keyword).  The
whitespace run is taken maximal; since no keyword starts with whitespace
this is what the regex matches. -/
def hashAt (s : Str) : Option Str :=
  match s with
  | [] => none
  | c :: rest =>
    if c = '#' then
      let sp := rest.takeWhile isSpaceCh
      let r := rest.dropWhile isSpaceCh
      match hashKws.find? (fun kw => kw.isPrefixOf r) with
      | some kw => some ('#' :: (sp ++ kw))
      | none => none
    else none

/-- Does any alternative of the hazard regex match at the start of `s`? -/
def tokenAt (s : Str) : Option Str :=
  match litAt s with
  | some t => some t
  | none => hashAt s

/-- The hazard filter (src lines 119-121, applied at 539).  hazard.match
anchors at offset 0 and its leading .* is compiled without DOTALL, so that
.* cannot cross a newline: an alternative is detected only when its
occurrence starts in the first line of the message (the \s* inside a
hash directive may itself span newlines, and the trailing .* can always
match empty).  The scan below therefore tries every position up to and
including the first newline and stops there.  The returned text feeds the
user-visible rejection (match.group(1)); the regex engine may report a
different occurrence than this left-to-right scan, but a token is found
exactly when one starts in the first line. -/
def hazardFind : Str → Option Str
  | [] => none
  | c :: cs =>
    match tokenAt (c :: cs) with
    | some t => some t
    | none => if c = '\n' then none else hazardFind cs

/-- The user-visible hazard rejection (src lines 541-542). -/
def forbiddenMsg (tok : Str) : Str :=
  ("Sorry, your code seems to contain a forbidden identifier: ").toList ++ tok

/-- The /help reply (src lines 507-515). -/
def helpText : Str :=
  ("Hi. I am a very boring bot, who likes to talk in OCaml only. " ++
   "My available commands are:\n" ++
   "  /help — show this help message\n" ++
   "  /kill — close the OCaml shell in use\n" ++
   "  /hist [n] — show command history, or execute the n-th most recent " ++
   "command from the history\n" ++
   "  /ml [code] — parse OCaml code (the code can span across many " ++
   "\\ml commands)").toList

/-- The instruction regex ^/ml ([\s\S]*)$ (src line 116): a match yields
everything after the four-character prefix. -/
def mlPref : Str := ("/ml ").toList

/-- Parse a /ml request; `group(1)` is the payload. -/
def mlPayload (msg : Str) : Option Str :=
  if mlPref.isPrefixOf msg then some (msg.drop 4) else none

/-- int() on the digit group captured by the /hist regex. -/
def digitsToNat (l : Str) : Nat :=
  l.foldl (fun a c => a * 10 + (c.toNat - ('0').toNat)) 0

/-- Decimal rendering of a number, for the history listing. -/
def natStr (n : Nat) : Str := Nat.toDigits 10 n

/-- The history-trimming while loop of evaluate (src lines 187-188):
`while len(hist) > HISTORY_LEN: hist.pop(HISTORY_LEN)`.  Each pop removes
the element at index HISTORY_LEN and shortens the list by one, so
`l.length` iterations always suffice; the first argument is that fuel. -/
def popLoop : Nat → List Str → List Str
  | 0, l => l
  | fuel + 1, l =>
    if HISTORY_LEN < l.length then popLoop fuel (l.eraseIdx HISTORY_LEN) else l

/-- Run the trimming loop to completion. -/
def trimHist (l : List Str) : List Str := popLoop l.length l

/-- The history update in evaluate (src line 186-188): insert the command
at the front, then trim. -/
def recordHistory (hist : List Str) (s : Str) : List Str :=
  trimHist (s :: hist)

/-- Embeds `evaluate` (src lines 173-215).  Looks the chat up (a KeyError
is logged and swallowed), records the command in the history, then writes
the command plus a newline to the shell's standard input and flushes.  On
BrokenPipeError it spawns a fresh shell, replaces the chat's _PIPE entry,
and resends the command — without the newline (src line 214).  The resend
is not inside a try block: a second consecutive failure propagates to the
caller.  Note that neither the module-level `p` nor any reader thread is
touched by the respawn. -/
def evaluate (st : BotState) (cid : Nat) (s : Str) : StepOut :=
  match findChat st.chats cid with
  | none => { st := st, acts := [], raised := false }
  | some chat =>
    let chat1 : Chat := { chat with hist := recordHistory chat.hist s }
    let st1 := setChat st cid chat1
    if st1.deadProcs.contains chat1.pipe then
      let pid := st1.nextPid
      let st2 := setChat { st1 with nextPid := pid + 1 } cid { chat1 with pipe := pid }
      if st2.deadProcs.contains pid then
        { st := st2, acts := [Action.spawnProc pid], raised := true }
      else
        { st := st2,
          acts := [Action.spawnProc pid, Action.writeStdin pid s],
          raised := false }
    else
      { st := st1,
        acts := [Action.writeStdin chat1.pipe (s ++ ['\n'])],
        raised := false }

/-- The stream that the body of `readResult` reads from (src line 226:
`line = p.stdout.readline()`).  The name `p` inside readResult is not a
parameter and not assigned locally, so it resolves to the module-level
`p` — the process spawned for the most recently created chat — not to
`chats[chatId][_PIPE]`. -/
def readResultSource (st : BotState) (cid : Nat) : Nat :=
  st.globalP

/-- One iteration of readResult after a line has been read (src lines
228-250): under the locks, exit if the chat's exit condition is set
(returning true), otherwise append the line to the chat's buffer. -/
def readResultBody (chat : Chat) (line : Str) : Chat × Bool :=
  if chat.cond then (chat, true)
  else ({ chat with msgBuf := chat.msgBuf ++ line }, false)

/-- Outcome of one iteration of the sender loop. -/
inductive FlushResult where
  | exited
  | flushed (msg : Str)
deriving DecidableEq

/-- One iteration of sendAnswer (src lines 260-287): under the locks,
first check the exit condition and return if it is set; only otherwise
read and clear the message buffer, and send it when nonempty. -/
def sendAnswerBody (chat : Chat) : Chat × FlushResult :=
  if chat.cond then (chat, FlushResult.exited)
  else ({ chat with msgBuf := [] }, FlushResult.flushed chat.msgBuf)

/-- Embeds clearChat (src lines 289-334): look the chat up (a KeyError is
logged and swallowed), signal the shell's process group (escalating to
SIGKILL if needed), set the exit condition, join the two threads, and pop
the chat from the dictionary. -/
def clearChat (st : BotState) (cid : Nat) : BotState × List Action :=
  match findChat st.chats cid with
  | none => (st, [])
  | some chat =>
    ({ st with chats := st.chats.filter (fun p => p.1 != cid) },
     [Action.killProc chat.pipe])

/-- Python list subscription l[i]: a nonnegative index counts from the
front, a negative index counts from the back, and an index out of range
either way raises IndexError (None here). -/
def pyGet (l : List Str) (i : Int) : Option Str :=
  if 0 ≤ i then l.get? i.toNat
  else if (-i).toNat ≤ l.length then l.get? (l.length - (-i).toNat)
  else none

/-- Embeds runFromHistory (src lines 360-378): retrieve
`chats[chatId][_HIST][index - 1]` — `index` is one based, so index 0
subscripts at -1 — swallowing KeyError/IndexError, then hand the retrieved
command to evaluate. -/
def runFromHistory (st : BotState) (cid : Nat) (index : Nat) : StepOut :=
  match findChat st.chats cid with
  | none => { st := st, acts := [], raised := false }
  | some chat =>
    match pyGet chat.hist ((index : Int) - 1) with
    | none => { st := st, acts := [], raised := false }
    | some cmd => evaluate st cid cmd

/-- The history listing built by showHistory (src lines 380-427), without
the custom keyboard markup (transport presentation). -/
def histMsg (hist : List Str) : Str :=
  let header := ("Last 20 inputs (from newest to oldest):\n").toList
  let body := (List.range hist.length).zip hist |>.foldl
    (fun acc p => acc ++ natStr (p.1 + 1) ++ (")  ").toList ++ p.2 ++ ['\n'])
    header
  if hist.length = 0 then body ++ ("none").toList else body

/-- Embeds showHistory's observable effect: send the history listing. -/
def showHistory (st : BotState) (cid : Nat) : List Action :=
  match findChat st.chats cid with
  | none => []
  | some chat => [Action.send cid (histMsg chat.hist)]

/-- The command-dispatch part of the main loop body (src lines 505-547):
/help, /kill, the /hist match (which falls through), the /ml instruction
match, the hazard filter, and evaluate. -/
def dispatch (st : BotState) (cid : Nat) (msg : Str) : StepOut :=
  if (("/help").toList).isPrefixOf msg then
    { st := st, acts := [Action.send cid helpText], raised := false }
  else if (("/kill").toList).isPrefixOf msg then
    let pr := clearChat st cid
    { st := pr.1, acts := pr.2, raised := false }
  else
    let histStep :=
      if (("/hist").toList).isPrefixOf msg then
        let r := (msg.drop 5).dropWhile isSpaceCh
        let digits := r.takeWhile (fun c => c.isDigit)
        if digits = [] then { st := st, acts := showHistory st cid, raised := false }
        else runFromHistory st cid (digitsToNat digits)
      else { st := st, acts := [], raised := false }
    if histStep.raised then histStep
    else
      match mlPayload msg with
      | none => histStep
      | some payload =>
        match hazardFind payload with
        | some tok =>
          { st := histStep.st,
            acts := histStep.acts ++ [Action.send cid (forbiddenMsg tok)],
            raised := false }
        | none =>
          let ev := evaluate histStep.st cid payload
          { st := ev.st, acts := histStep.acts ++ ev.acts, raised := ev.raised }

/-- One iteration of the main message loop for one decoded update
(src lines 455-547): if the chat id is unknown, spawn an ocaml shell,
insert the chat dictionary (which also rebinds the module-level `p`) and
start its reader and sender threads (466-499); update the last-activity
timestamp (502); then dispatch on the message text (505-547). -/
def processMessage (st : BotState) (now cid : Nat) (msg : Str) : StepOut :=
  let pr :=
    match findChat st.chats cid with
    | some _ => (st, ([] : List Action))
    | none =>
      ({ st with
           chats := (cid, freshChat st.nextPid) :: st.chats,
           globalP := st.nextPid,
           nextPid := st.nextPid + 1 },
       [Action.spawnProc st.nextPid, Action.startReader cid, Action.startFlush cid])
  let st2 := setLast pr.1 cid now
  let out := dispatch st2 cid msg
  { st := out.st, acts := pr.2 ++ out.acts, raised := out.raised }

/-- Embeds the retry behavior of sendMessage (src lines 146-171): on a
transport failure it sleeps five seconds and calls itself again, with no
attempt cap.  `outcomes` lists the success of each successive transport
attempt; the run stops early on the first success and otherwise consumes
the whole list, still retrying.  Returns the number of attempts made and
whether the message was delivered. -/
def sendMessageRun : List Bool → Nat × Bool
  | [] => (0, false)
  | ok :: rest =>
    if ok then (1, true)
    else
      let pr := sendMessageRun rest
      (pr.1 + 1, pr.2)

/-- Initial state: no chats, fresh pids from 1, all processes healthy. -/
def st0 : BotState := { chats := [], globalP := 0, nextPid := 1, deadProcs := [] }

/-- A plain text message that matches no bot command. -/
def hiMsg : Str := ("hi").toList

/-- State after a first message from chat 1. -/
def stOne : BotState := (processMessage st0 5 1 hiMsg).st

/-- State after a further message from chat 2. -/
def stTwo : BotState := (processMessage stOne 6 2 hiMsg).st

/-- A chat whose interpreter process (handle 1) is dead. -/
def chatD : Chat := { pipe := 1, msgBuf := [], cond := false, hist := [], last := 0 }

/-- A registry holding only `chatD`, with its pipe broken. -/
def stDead : BotState :=
  { chats := [(1, chatD)], globalP := 1, nextPid := 2, deadProcs := [1] }

/-- A sample OCaml command. -/
def cmdX : Str := ("1+1;;").toList

/-- A chat with a two-entry history, newest first. -/
def chatH : Chat :=
  { pipe := 3, msgBuf := [], cond := false,
    hist := [("a").toList, ("b").toList], last := 0 }

/-- A registry holding only `chatH`, everything healthy. -/
def stH : BotState :=
  { chats := [(7, chatH)], globalP := 3, nextPid := 4, deadProcs := [] }

/-- A /help message. -/
def helpMsg : Str := ("/help").toList

/-- A chat whose exit condition is set while a byte is still buffered. -/
def chatC4 : Chat := { pipe := 1, msgBuf := ['x'], cond := true, hist := [], last := 0 }

/-- HISTORY_LEN + 1 pairwise distinct commands. -/
def cmds21 : List Str := (List.range (HISTORY_LEN + 1)).map (fun n => natStr n)

/-! Helper lemmas. -/

theorem findChat_map_setLast (l : List (Nat × Chat)) (cid now : Nat) :
    findChat (l.map (fun p => if p.1 = cid then (cid, { p.2 with last := now }) else p)) cid
      = (findChat l cid).map (fun c => { c with last := now }) := by
  induction l with
  | nil => rfl
  | cons p rest ih =>
    obtain ⟨k, c⟩ := p
    simp only [List.map_cons]
    by_cases hk : k = cid
    · subst hk
      rw [if_pos rfl]
      simp [findChat]
    · rw [if_neg hk]
      simp [findChat, hk, ih]

theorem findChat_setLast (st : BotState) (cid now : Nat) :
    findChat (setLast st cid now).chats cid
      = (findChat st.chats cid).map (fun c => { c with last := now }) := by
  simp only [setLast]
  exact findChat_map_setLast st.chats cid now

/-! Claim theorems. -/

/-- Claim C1 (code bug): the claim says every Reader loop reads lines only
from its own session's interpreter output stream.  The code violates this
and its own module docstring ("one thread reads the output of the shell
related to his chat"): readResult reads the module-level `p`, the process
of the most recently created chat.  After chats 1 and 2 are created in
that order, chat 1 owns process 1 and chat 2 owns process 2, yet chat 1's
reader reads from process 2 — both readers share chat 2's stream. -/
theorem reader_uses_global_pipe :
    (findChat stTwo.chats 1).map (fun c => c.pipe) = some 1 ∧
    (findChat stTwo.chats 2).map (fun c => c.pipe) = some 2 ∧
    readResultSource stTwo 1 = 2 ∧
    readResultSource stTwo 1 ≠ 1 ∧
    readResultSource stTwo 1 = readResultSource stTwo 2 := by decide

/-- Claim C2 (code bug): the claim says the respawn sequence after a
broken-pipe write starts a new Reader loop bound to the new process.  In
the code, evaluate's BrokenPipeError handler spawns a new shell, replaces
the chat's _PIPE entry and resends the command, but starts no reader
thread for the new process and does not even rebind the module-level `p`
(it is a local variable in evaluate), so nothing ever reads the new
process's output. -/
theorem respawn_starts_no_reader :
    (evaluate stDead 1 cmdX).acts = [Action.spawnProc 2, Action.writeStdin 2 cmdX] ∧
    (∀ c : Nat, Action.startReader c ∉ (evaluate stDead 1 cmdX).acts) ∧
    (evaluate stDead 1 cmdX).st.globalP = 1 := by
  have hacts : (evaluate stDead 1 cmdX).acts
      = [Action.spawnProc 2, Action.writeStdin 2 cmdX] := by decide
  refine ⟨hacts, ?_, by decide⟩
  intro c
  rw [hacts]
  simp

/-- Claim C3 counterexample: the claim says that after a broken-pipe
failure the same bytes, newline included, are resent to the fresh process.
On the dead-pipe state, the first write attempt carries the command plus a
newline, but the resend (src line 214) carries the command without the
newline. -/
theorem resend_drops_newline :
    Action.writeStdin 2 (cmdX ++ ['\n']) ∉ (evaluate stDead 1 cmdX).acts ∧
    Action.writeStdin 2 cmdX ∈ (evaluate stDead 1 cmdX).acts := by decide

theorem evaluate_pipe_behavior (st : BotState) (cid : Nat) (s : Str) (chat : Chat)
    (h : findChat st.chats cid = some chat) :
    (chat.pipe ∉ st.deadProcs →
      (evaluate st cid s).acts = [Action.writeStdin chat.pipe (s ++ ['\n'])] ∧
      (evaluate st cid s).raised = false) ∧
    (chat.pipe ∈ st.deadProcs → st.nextPid ∉ st.deadProcs →
      (evaluate st cid s).acts
        = [Action.spawnProc st.nextPid, Action.writeStdin st.nextPid s] ∧
      (evaluate st cid s).raised = false) ∧
    (chat.pipe ∈ st.deadProcs → st.nextPid ∈ st.deadProcs →
      (evaluate st cid s).raised = true ∧
      (evaluate st cid s).acts = [Action.spawnProc st.nextPid]) := by
  refine ⟨fun h1 => ?_, fun h1 h2 => ?_, fun h1 h2 => ?_⟩
  · simp [evaluate, h, setChat, h1]
  · simp [evaluate, h, setChat, h1, h2]
  · simp [evaluate, h, setChat, h1, h2]

/-- Claim C3 (amended): write(line) appends a newline and flushes; on a
broken-pipe failure the line is resent exactly once to a freshly
respawned process, but without the trailing newline; a second consecutive
failure propagates to the caller without further retries. -/
theorem evaluate_write_contract (st : BotState) (cid : Nat) (s : Str) (chat : Chat)
    (h : findChat st.chats cid = some chat) :
    (chat.pipe ∉ st.deadProcs →
      (evaluate st cid s).acts = [Action.writeStdin chat.pipe (s ++ ['\n'])] ∧
      (evaluate st cid s).raised = false) ∧
    (chat.pipe ∈ st.deadProcs → st.nextPid ∉ st.deadProcs →
      (evaluate st cid s).acts
        = [Action.spawnProc st.nextPid, Action.writeStdin st.nextPid s] ∧
      (evaluate st cid s).raised = false) ∧
    (chat.pipe ∈ st.deadProcs → st.nextPid ∈ st.deadProcs →
      (evaluate st cid s).raised = true ∧
      (evaluate st cid s).acts = [Action.spawnProc st.nextPid]) :=
  evaluate_pipe_behavior st cid s chat h

/-- Witness for evaluate_write_contract: the dead-pipe state with a
healthy fresh pid takes the single respawn-and-resend branch. -/
theorem evaluate_write_contract_witness :
    (evaluate stDead 1 cmdX).acts
      = [Action.spawnProc stDead.nextPid, Action.writeStdin stDead.nextPid cmdX] ∧
    (evaluate stDead 1 cmdX).raised = false :=
  (evaluate_write_contract stDead 1 cmdX chatD rfl).2.1 (by decide) (by decide)

/-- Claim C4 counterexample: the claim says the Flush loop drains and
delivers remaining output before exiting, checking the termination flag
only after the drain.  sendAnswer checks the flag first: with the flag set
and a byte still buffered, the iteration exits, delivering nothing and
leaving the buffer untouched. -/
theorem flush_skips_final_drain :
    sendAnswerBody chatC4 = (chatC4, FlushResult.exited) ∧ chatC4.msgBuf = ['x'] := by
  decide

/-- Claim C4 (amended): the Flush loop checks the termination flag before
draining: once the flag is set the iteration exits immediately and output
still in the buffer is discarded, not delivered; only while the flag is
unset does it atomically drain the whole buffer.  appendOutput is a no-op
once the flag is set. -/
theorem flush_checks_flag_before_drain (chat : Chat) (line : Str) :
    (chat.cond = true → sendAnswerBody chat = (chat, FlushResult.exited)) ∧
    (chat.cond = false →
      sendAnswerBody chat = ({ chat with msgBuf := [] }, FlushResult.flushed chat.msgBuf)) ∧
    (chat.cond = true → readResultBody chat line = (chat, true)) := by
  refine ⟨fun h => ?_, fun h => ?_, fun h => ?_⟩ <;>
    simp [sendAnswerBody, readResultBody, h]

/-- Witness for flush_checks_flag_before_drain at the terminated chat. -/
theorem flush_checks_flag_before_drain_witness :
    sendAnswerBody chatC4 = (chatC4, FlushResult.exited) :=
  (flush_checks_flag_before_drain chatC4 []).1 rfl

/-- Claim C5 counterexample: the claim says replay 0 fails without side
effects.  With history ["a", "b"] (newest first), /hist 0 subscripts the
history at -1, retrieves the oldest entry "b", sends it to the shell and
records it in the history again — a command is sent and the history
changes. -/
theorem replay_zero_side_effects :
    (runFromHistory stH 7 0).acts = [Action.writeStdin 3 (("b\n").toList)] ∧
    (findChat (runFromHistory stH 7 0).st.chats 7).map (fun c => c.hist)
      = some [("b").toList, ("a").toList, ("b").toList] := by decide

/-- Claim C9 counterexample: the claim says a /help message leaves the
last-activity timestamp unchanged.  The main loop updates the timestamp on
every decoded message before dispatching (src line 502), so /help moves it
from 0 to the current time. -/
theorem help_updates_timestamp :
    chatH.last = 0 ∧
    (findChat (processMessage stH 42 7 helpMsg).st.chats 7).map (fun c => c.last)
      = some 42 := by decide

/-- Claim C9 (amended): processing a /help message updates the session's
last-activity timestamp like every other decoded inbound message: the main
loop stamps the chat (creating it first if needed) before dispatching on
the text, /help-only probing included. -/
theorem timestamp_updated_every_message (st : BotState) (now cid : Nat) (msg : Str)
    (h : (("/help").toList).isPrefixOf msg = true) :
    (findChat (processMessage st now cid msg).st.chats cid).map (fun c => c.last)
      = some now := by
  have h' : (['/', 'h', 'e', 'l', 'p'] : Str) <+: msg := List.isPrefixOf_iff_prefix.mp h
  unfold processMessage
  cases hc : findChat st.chats cid with
  | none =>
    simp only [hc]
    simp [dispatch, h', findChat_setLast, setLast, findChat]
  | some c =>
    simp only [hc]
    simp [dispatch, h', findChat_setLast, hc]

/-- Witness for timestamp_updated_every_message: a /help message from a
fresh chat stamps the newly created session with the current time. -/
theorem timestamp_updated_every_message_witness :
    (findChat (processMessage st0 42 1 helpMsg).st.chats 1).map (fun c => c.last)
      = some 42 :=
  timestamp_updated_every_message st0 42 1 helpMsg rfl

/-- Claim C10: for every inbound decoded message whose chat id has no
registered session, a fresh interpreter process is spawned and the session
with its reader and sender threads is set up before the message text is
examined: the first three actions of the step are the process spawn and
the two thread starts, whatever the text — /help, /kill and unrecognized
text included. -/
theorem new_session_before_dispatch (st : BotState) (now cid : Nat) (msg : Str)
    (h : findChat st.chats cid = none) :
    (processMessage st now cid msg).acts.take 3
      = [Action.spawnProc st.nextPid, Action.startReader cid, Action.startFlush cid] := by
  simp only [processMessage, h]
  exact List.take_left' rfl

/-- Witness for new_session_before_dispatch: the very first message of
chat 1 spawns process 1 and starts its two threads first. -/
theorem new_session_before_dispatch_witness :
    (processMessage st0 5 1 hiMsg).acts.take 3
      = [Action.spawnProc st0.nextPid, Action.startReader 1, Action.startFlush 1] :=
  new_session_before_dispatch st0 5 1 hiMsg rfl

theorem sendMessageRun_replicate_false (n : Nat) :
    sendMessageRun (List.replicate n false) = (n, false) := by
  induction n with
  | zero => rfl
  | succ m ih => simp [List.replicate_succ, sendMessageRun, ih]

/-- Claim C8 counterexample: the claim says outbound delivery failure is
retried only a bounded number of times.  sendMessage retries after every
failure with no cap: no bound on the number of attempts made across
all-failing transports exists. -/
theorem unbounded_retry_counterexample :
    ¬ ∃ N : Nat, ∀ n : Nat, (sendMessageRun (List.replicate n false)).1 ≤ N := by
  rintro ⟨N, h⟩
  have h2 := h (N + 1)
  rw [sendMessageRun_replicate_false] at h2
  omega

/-- Claim C8 (amended): on outbound delivery failure sendMessage sleeps
five seconds and retries unconditionally — the number of attempts equals
the length of the failure streak with no cap and no drop, so a persistent
transport outage blocks the Flush loop indefinitely on a single message;
the message is delivered on the first transport success. -/
theorem sendMessage_retries_unbounded (n : Nat) :
    sendMessageRun (List.replicate n false) = (n, false) ∧
    sendMessageRun (List.replicate n false ++ [true]) = (n + 1, true) := by
  constructor
  · exact sendMessageRun_replicate_false n
  · induction n with
    | zero => rfl
    | succ m ih => simp [List.replicate_succ, sendMessageRun, ih]

theorem pyGet_neg_one (l : List Str) (hne : l ≠ []) :
    pyGet l (-1) = l.getLast? := by
  have h1 : ((-(-1 : Int))).toNat = 1 := rfl
  unfold pyGet
  rw [if_neg (by omega), if_pos (by rw [h1]; exact List.length_pos.mpr hne), h1]
  exact (List.getLast?_eq_get? l).symm

theorem pyGet_zero_minus_one (l : List Str) (hne : l ≠ []) :
    pyGet l (((0 : Nat) : Int) - 1) = l.getLast? := by
  have hc : (((0 : Nat) : Int) - 1) = -1 := by norm_num
  rw [hc]
  exact pyGet_neg_one l hne

/-- Claim C5 (amended): replay k for k greater than the current history
length fails without side effects — the retrieval raises IndexError, which
is swallowed, no command is sent and the state is unchanged.  Replay 0,
however, does not fail: the one-based index is subscripted at Python index
-1, so on a nonempty history it resubmits the oldest entry through
evaluate, with all of evaluate's side effects. -/
theorem replay_out_of_range (st : BotState) (cid k : Nat) (chat : Chat)
    (h : findChat st.chats cid = some chat) :
    (chat.hist.length < k →
      runFromHistory st cid k = { st := st, acts := [], raised := false }) ∧
    (chat.hist ≠ [] →
      ∃ cmd, chat.hist.getLast? = some cmd ∧
        runFromHistory st cid 0 = evaluate st cid cmd) := by
  constructor
  · intro hk
    have hnone : pyGet chat.hist ((k : Int) - 1) = none := by
      unfold pyGet
      rw [if_pos (by omega : (0 : Int) ≤ (k : Int) - 1)]
      exact List.get?_eq_none.mpr (by omega)
    simp only [runFromHistory, h, hnone]
  · intro hne
    have hsome : chat.hist.getLast?.isSome := List.getLast?_isSome.mpr hne
    obtain ⟨cmd, hcmd⟩ := Option.isSome_iff_exists.mp hsome
    refine ⟨cmd, hcmd, ?_⟩
    have hpy : pyGet chat.hist (((0 : Nat) : Int) - 1) = some cmd := by
      rw [pyGet_zero_minus_one chat.hist hne]
      exact hcmd
    simp only [runFromHistory, h, hpy]

/-- Witness for replay_out_of_range: replaying index 25 of a two-entry
history is a no-op. -/
theorem replay_out_of_range_witness :
    runFromHistory stH 7 25 = { st := stH, acts := [], raised := false } :=
  (replay_out_of_range stH 7 25 chatH rfl).1 (by decide)

theorem take_append_take (a b : List Str) (n : Nat) :
    (a ++ b.take n).take n = (a ++ b).take n := by
  rw [List.take_append_eq_append_take, List.take_append_eq_append_take, List.take_take]
  congr 1
  rw [min_eq_left (Nat.sub_le _ _)]

theorem popLoop_take (fuel : Nat) (l : List Str) (h : l.length ≤ HISTORY_LEN + fuel) :
    popLoop fuel l = l.take HISTORY_LEN := by
  induction fuel generalizing l with
  | zero =>
    unfold popLoop
    exact (List.take_of_length_le (by omega)).symm
  | succ m ih =>
    unfold popLoop
    by_cases hl : HISTORY_LEN < l.length
    · rw [if_pos hl, ih _ (by rw [List.length_eraseIdx, if_pos hl]; omega)]
      rw [List.eraseIdx_eq_take_drop_succ]
      exact List.take_left' (by rw [List.length_take]; omega)
    · rw [if_neg hl]
      exact (List.take_of_length_le (by omega)).symm

theorem trimHist_eq_take (l : List Str) : trimHist l = l.take HISTORY_LEN :=
  popLoop_take l.length l (by omega)

theorem recordHistory_take (hist : List Str) (s : Str) :
    recordHistory hist s = (s :: hist).take HISTORY_LEN :=
  trimHist_eq_take (s :: hist)

theorem foldl_recordHistory (cmds : List Str) :
    ∀ hist : List Str, hist.length ≤ HISTORY_LEN →
      List.foldl recordHistory hist cmds = (cmds.reverse ++ hist).take HISTORY_LEN := by
  induction cmds with
  | nil =>
    intro hist h
    simp [List.take_of_length_le h]
  | cons c cs ih =>
    intro hist h
    rw [List.foldl_cons,
      ih (recordHistory hist c) (by rw [recordHistory_take, List.length_take]; omega)]
    rw [recordHistory_take, take_append_take]
    rw [List.reverse_cons, List.append_assoc, List.singleton_append]

/-- Claim C7: the history ring never exceeds HISTORY_LEN entries: each
recorded command is inserted at the front (the update equals taking the
first HISTORY_LEN of the new-front list), and once the length would exceed
HISTORY_LEN the oldest entry is evicted, so after HISTORY_LEN + 1 distinct
insertions the first-inserted command is no longer in the history. -/
theorem history_ring_bounded (hist : List Str) (s : Str) :
    (recordHistory hist s).length ≤ HISTORY_LEN ∧
    recordHistory hist s = (s :: hist).take HISTORY_LEN ∧
    (∀ cmds : List Str, cmds.length = HISTORY_LEN + 1 → cmds.Nodup →
      ∀ c0, cmds.head? = some c0 → c0 ∉ List.foldl recordHistory [] cmds) := by
  refine ⟨?_, recordHistory_take hist s, ?_⟩
  · rw [recordHistory_take, List.length_take]
    omega
  · intro cmds hlen hnd c0 hc0
    cases cmds with
    | nil => simp at hc0
    | cons c cs =>
      have hc : c = c0 := by simpa using hc0
      subst hc
      have hcs : cs.length = HISTORY_LEN := by simpa using hlen
      rw [foldl_recordHistory _ [] (by simp)]
      rw [List.append_nil, List.reverse_cons]
      rw [List.take_left' (by rw [List.length_reverse]; exact hcs)]
      rw [List.mem_reverse]
      exact (List.nodup_cons.mp hnd).1

/-- Witness for history_ring_bounded: after inserting twenty-one distinct
commands into an empty history, the first-inserted command is gone. -/
theorem history_ring_bounded_witness :
    (("0").toList) ∉ List.foldl recordHistory [] cmds21 :=
  (history_ring_bounded [] []).2.2 cmds21 (by decide) (by decide) (("0").toList) (by decide)

/-! The hazard filter characterization. -/

end OcamlBot
